import Mathlib

/-!
Shallow embedding of the FastAPI-Tutorial core (authentication, token
service, ownership checks and the vote state machine), translated from
app/models.py, app/schema.py, app/oauth2.py, app/utils.py,
app/routers/posts.py and app/routers/votes.py.

The database is modelled as lists of rows; query order follows table
order.  Instants are seconds as natural numbers.  Fallible handlers
return an Except value whose error component is the HTTPException the
handler raises.
-/

namespace FastAPITutorial

/-- Row of the users table (app/models.py, class User). -/
structure User where
  id : Int
  email : String
  password : String
deriving DecidableEq

/-- Row of the posts table (app/models.py, class Post). -/
structure Post where
  id : Int
  owner_id : Int
  title : String
  content : String
  published : Bool
deriving DecidableEq

/-- Row of the votes table (app/models.py, class Vote): composite
primary key (post_id, owner_id); presence of a row means liked. -/
structure Vote where
  post_id : Int
  owner_id : Int
deriving DecidableEq

/-- Database state: the three tables, each a list of rows in table
order. -/
structure DB where
  users : List User
  posts : List Post
  votes : List Vote
deriving DecidableEq

/-- The fastapi HTTPException as raised by the handlers: an HTTP status
code plus a human-readable detail message (headers omitted). -/
structure HTTPException where
  status_code : Nat
  detail : String
deriving DecidableEq

/-- Schema TokenData (app/schema.py): data extracted from a JWT. -/
structure TokenData where
  username : Option Int
deriving DecidableEq

/-- Schema PostCreate (app/schema.py): request body for creating or
updating a post. -/
structure PostCreate where
  title : String
  content : String
  published : Bool
deriving DecidableEq

/-- Schema PostJoin (app/schema.py): a post together with its vote
count. -/
structure PostJoin where
  post : Post
  votes : Nat
deriving DecidableEq

/-- Schema VoteSchema (app/schema.py): vote request body.  The dir
field is kept as an unconstrained integer so that the handler's own
branch for out-of-range directions (votes.py lines 84-88) is part of
the model. -/
structure VoteSchema where
  post_id : Int
  dir : Int
deriving DecidableEq

/-- A JWT bearer token as seen by jwt.decode: either unparseable,
parseable but signed with the wrong key, or correctly signed with an
optional user_id claim and an expiration instant (create_access_token
always sets exp). -/
inductive JwtToken where
  | malformed : JwtToken
  | badSignature (user_id : Option Int) (exp : Nat) : JwtToken
  | signed (user_id : Option Int) (exp : Nat) : JwtToken
deriving DecidableEq

/-- Modelled from the spec: the PyJWT decode primitive used by
app/oauth2.py is a third-party dependency not under src/.  Per the
spec, verification "fails with InvalidToken if signature invalid,
malformed, or expires_at <= now"; on success it yields the payload
claims. -/
def jwtDecode (token : JwtToken) (now : Nat) : Option (Option Int × Nat) :=
  match token with
  | .malformed => none
  | .badSignature _ _ => none
  | .signed user_id exp => if exp ≤ now then none else some (user_id, exp)

/-- JWT configuration default (app/oauth2.py): token TTL in minutes. -/
def ACCESS_TOKEN_EXPIRE_MINUTES : Nat := 30

/-- create_access_token (app/oauth2.py): the payload data is the
user_id claim; an exp claim of now plus the TTL is added and the result
is signed with the secret key. -/
def create_access_token (user_id : Int) (now : Nat) : JwtToken :=
  .signed (some user_id) (now + ACCESS_TOKEN_EXPIRE_MINUTES * 60)

/-- The HTTPException built in get_current_active_user (app/oauth2.py)
and passed to verify_access_token as the single failure value. -/
def credentials_exception : HTTPException :=
  ⟨401, "Could not validate credentials"⟩

/-- verify_access_token (app/oauth2.py): decode the token; any
InvalidTokenError and a missing user_id claim alike raise the provided
credentials exception; otherwise return TokenData with the user id. -/
def verify_access_token (token : JwtToken) (now : Nat)
    (credentialsExc : HTTPException) : Except HTTPException TokenData :=
  match jwtDecode token now with
  | none => .error credentialsExc
  | some (user_id, _) =>
    match user_id with
    | none => .error credentialsExc
    | some uid => .ok ⟨some uid⟩

/-- get_current_active_user (app/oauth2.py): verify the token, then
fetch the user whose id equals the decoded identifier; a missing user
raises the same credentials exception. -/
def get_current_active_user (token : JwtToken) (db : DB) (now : Nat) :
    Except HTTPException User :=
  match verify_access_token token now credentials_exception with
  | .error e => .error e
  | .ok token_data =>
    match db.users.find? (fun u => some u.id == token_data.username) with
    | none => .error credentials_exception
    | some u => .ok u

/-- Modelled from the spec: the pwdlib PasswordHash (Argon2-class)
implementation behind app/utils.py is a third-party dependency not
under src/.  A produced hash string is modelled structurally in PHC
format: an algorithm identifier, the embedded salt, and a digest that
is a one-way function of salt and password (the model digest keeps the
pair injectively). -/
structure HashString where
  algorithm : String
  salt : Nat
  digest : String
deriving DecidableEq

/-- Algorithm identifier embedded in every hash this system produces. -/
def ARGON2_ID : String := "argon2id"

/-- hash_password (app/utils.py).  Modelled from the spec:
"deterministic-salted one-way hash"; the salt is drawn fresh by the
library on each call, so it is an explicit argument here. -/
def hash_password (password : String) (salt : Nat) : HashString :=
  ⟨ARGON2_ID, salt, password⟩

/-- verify_password (app/utils.py).  Modelled from the spec:
"comparison after recomputing hash with embedded salt/parameters.
Never throws on malformed hash; returns false" — a hash whose
algorithm identifier is not recognised fails verification rather than
raising. -/
def verify_password (plain : String) (hashed : HashString) : Bool :=
  if hashed.algorithm == ARGON2_ID then
    (hash_password plain hashed.salt).digest == hashed.digest
  else
    false

/-- Vote count of one post, as computed by the outer join with
func.count grouped by post id (posts.py). -/
def vote_count (post_id : Int) (votes : List Vote) : Nat :=
  (votes.filter (fun v => v.post_id == post_id)).length

/-- get_post (app/routers/posts.py): the joined, grouped query takes
first() WITHOUT filtering by the id parameter, so it yields the first
post of the table with its vote count; only the empty table gives the
404, whose detail quotes the id. -/
def get_post (id : Int) (db : DB) : Except HTTPException PostJoin :=
  match db.posts with
  | [] => .error ⟨404, "post with id " ++ toString id ++ " not found"⟩
  | p :: _ => .ok ⟨p, vote_count p.id db.votes⟩

/-- delete_post (app/routers/posts.py): look the post up by id; 404 if
absent, 403 if the current user is not the owner, otherwise delete the
row and commit (the handler returns 204 with no body, so success
carries only the new database state). -/
def delete_post (id : Int) (db : DB) (current_user : User) :
    Except HTTPException DB :=
  match db.posts.find? (fun p => p.id == id) with
  | none => .error ⟨404, "post with id " ++ toString id ++ " not found"⟩
  | some post =>
    if post.owner_id ≠ current_user.id then
      .error ⟨403, "Not authorized to delete this post"⟩
    else
      .ok { db with posts := db.posts.filter (fun p => !(p.id == post.id)) }

/-- update_post (app/routers/posts.py): look the post up by id; 404 if
absent, 403 if the current user is not the owner, otherwise overwrite
title, content and published from the body and return the updated
row. -/
def update_post (id : Int) (body : PostCreate) (db : DB)
    (current_user : User) : Except HTTPException (Post × DB) :=
  match db.posts.find? (fun p => p.id == id) with
  | none => .error ⟨404, "post with id " ++ toString id ++ " not found"⟩
  | some db_post =>
    if db_post.owner_id ≠ current_user.id then
      .error ⟨403, "Not authorized to update this post"⟩
    else
      let updated : Post :=
        { db_post with
          title := body.title
          content := body.content
          published := body.published }
      .ok (updated,
        { db with posts := db.posts.map (fun p => if p.id == id then updated else p) })

/-- Result of the vote handler: 201 with the created row, or 204 with
no content after a removal. -/
inductive VoteOutcome where
  | created (v : Vote) : VoteOutcome
  | noContent : VoteOutcome
deriving DecidableEq

/-- The 409 raised by the vote handler when the pair already voted. -/
def vote_conflict (user_id post_id : Int) : HTTPException :=
  ⟨409, "user " ++ toString user_id ++ " has already voted on post " ++
    toString post_id ++ ""⟩

/-- vote (app/routers/votes.py): query the existing vote for
(post_id, current user); dir = 1 adds the row or raises 409 if it
exists, dir = 0 deletes the matching rows or raises 404 if absent, any
other dir raises 400. -/
def vote (v : VoteSchema) (db : DB) (current_user : User) :
    Except HTTPException (VoteOutcome × DB) :=
  let existing_vote := db.votes.find?
    (fun r => r.post_id == v.post_id && r.owner_id == current_user.id)
  if v.dir = 1 then
    match existing_vote with
    | some _ => .error (vote_conflict current_user.id v.post_id)
    | none =>
      let new_vote : Vote := ⟨v.post_id, current_user.id⟩
      .ok (.created new_vote, { db with votes := db.votes ++ [new_vote] })
  else if v.dir = 0 then
    match existing_vote with
    | none => .error ⟨404, "Vote does not exist"⟩
    | some _ =>
      let remaining := db.votes.filter
        (fun r => !(r.post_id == v.post_id && r.owner_id == current_user.id))
      .ok (.noContent, { db with votes := remaining })
  else
    .error ⟨400, "Invalid vote direction"⟩

/-- Success projection of a handler result: the value on ok, none on
any HTTPException. -/
def okOf {α : Type} (e : Except HTTPException α) : Option α :=
  match e with
  | .ok a => some a
  | .error _ => none

/-! Helper lemmas about the vote query predicate. -/

theorem vote_pred_iff (p uid : Int) (r : Vote) :
    (r.post_id == p && r.owner_id == uid) = true ↔ r = Vote.mk p uid := by
  cases r with
  | mk rp ro => simp [Bool.and_eq_true, beq_iff_eq, Vote.mk.injEq]

theorem find?_vote_eq_none (p uid : Int) (l : List Vote)
    (h : Vote.mk p uid ∉ l) :
    l.find? (fun r => r.post_id == p && r.owner_id == uid) = none := by
  rw [List.find?_eq_none]
  intro r hr hcontra
  have : r = Vote.mk p uid := (vote_pred_iff p uid r).mp hcontra
  subst this
  exact h hr

theorem find?_vote_eq_some (p uid : Int) (l : List Vote)
    (h : Vote.mk p uid ∈ l) :
    l.find? (fun r => r.post_id == p && r.owner_id == uid)
      = some (Vote.mk p uid) := by
  induction l with
  | nil => cases h
  | cons a t ih =>
    by_cases hpa : (a.post_id == p && a.owner_id == uid) = true
    · have h1 : (a :: t).find? (fun r => r.post_id == p && r.owner_id == uid)
          = some a :=
        List.find?_cons_of_pos t hpa
      rw [h1, (vote_pred_iff p uid a).mp hpa]
    · have h1 : (a :: t).find? (fun r => r.post_id == p && r.owner_id == uid)
          = t.find? (fun r => r.post_id == p && r.owner_id == uid) :=
        List.find?_cons_of_neg t hpa
      rw [h1]
      rcases List.mem_cons.mp h with ha | ht
      · exact absurd ((vote_pred_iff p uid a).mpr ha.symm) hpa
      · exact ih ht

theorem filter_vote_eq_self (p uid : Int) (l : List Vote)
    (h : Vote.mk p uid ∉ l) :
    l.filter (fun r => !(r.post_id == p && r.owner_id == uid)) = l := by
  rw [List.filter_eq_self]
  intro r hr
  cases hb : (r.post_id == p && r.owner_id == uid) with
  | false => simp
  | true =>
    have : r = Vote.mk p uid := (vote_pred_iff p uid r).mp hb
    subst this
    exact absurd hr h

/-! Claim theorems. -/

/-- Claim C1: verifying a token issued at instant now for a user id,
at that same instant now, succeeds and returns exactly that user id. -/
theorem token_round_trip (user_id : Int) (now : Nat) :
    verify_access_token (create_access_token user_id now) now
        credentials_exception
      = .ok ⟨some user_id⟩ := by
  have h : ¬ (now + ACCESS_TOKEN_EXPIRE_MINUTES * 60 ≤ now) := by
    unfold ACCESS_TOKEN_EXPIRE_MINUTES
    omega
  simp only [verify_access_token, create_access_token, jwtDecode, if_neg h]

/-- Claim C2: a token carrying expiration instant e fails verification
at every instant now with e ≤ now — in particular exactly at the
encoded expiration — and an ill-signed token carrying e fails as
well. -/
theorem token_expiry_boundary (user_id : Option Int) (e now : Nat)
    (exc : HTTPException) (h : e ≤ now) :
    verify_access_token (.signed user_id e) now exc = .error exc ∧
    verify_access_token (.badSignature user_id e) now exc = .error exc := by
  constructor
  · simp only [verify_access_token, jwtDecode, if_pos h]
  · rfl

/-- Witness for claim C2 at the exact boundary now = e = 100. -/
theorem token_expiry_boundary_witness :
    100 ≤ 100 ∧
    (verify_access_token (.signed (some 7) 100) 100 credentials_exception
        = .error credentials_exception ∧
      verify_access_token (.badSignature (some 7) 100) 100
          credentials_exception
        = .error credentials_exception) :=
  ⟨by decide,
    token_expiry_boundary (some 7) 100 100 credentials_exception (by decide)⟩

/-- Claim C4: authenticating any token against any database either
succeeds or fails with the one generic credentials exception, whose
status is 401 with the fixed message — no failure cause (malformed,
bad signature, expired, missing claim, unknown user) is
distinguishable. -/
theorem auth_failure_collapse (token : JwtToken) (db : DB) (now : Nat) :
    ((∃ u, get_current_active_user token db now = .ok u) ∨
      get_current_active_user token db now = .error credentials_exception) ∧
    credentials_exception = ⟨401, "Could not validate credentials"⟩ := by
  refine ⟨?_, rfl⟩
  have hv : verify_access_token token now credentials_exception
        = .error credentials_exception ∨
      ∃ td, verify_access_token token now credentials_exception = .ok td := by
    unfold verify_access_token
    cases jwtDecode token now with
    | none => exact Or.inl rfl
    | some pair =>
      cases pair with
      | mk uid e =>
        cases uid with
        | none => exact Or.inl rfl
        | some i => exact Or.inr ⟨⟨some i⟩, rfl⟩
  rcases hv with hv | ⟨td, hv⟩
  · right
    unfold get_current_active_user
    rw [hv]
  · have hg : get_current_active_user token db now
        = match db.users.find? (fun u => some u.id == td.username) with
          | none => .error credentials_exception
          | some u => .ok u := by
      unfold get_current_active_user
      rw [hv]
    cases hf : db.users.find? (fun u => some u.id == td.username) with
    | none =>
      right
      rw [hf] at hg
      exact hg
    | some u =>
      left
      refine ⟨u, ?_⟩
      rw [hf] at hg
      exact hg

/-- Claim C3: over any state db in which (p, u) has no vote row and
any state dbv in which it has one — Add on dbv raises 409 while Remove
on dbv deletes exactly the matching row; Add on db creates exactly the
row (p, u.id) and returns it, Remove on db raises 404; after the
successful Add, a second Add raises 409 and a Remove restores db
exactly (so a further Remove raises 404 again by the db conjunct). -/
theorem vote_state_machine (u : User) (p : Int) (db dbv : DB)
    (hfresh : Vote.mk p u.id ∉ db.votes)
    (hvoted : Vote.mk p u.id ∈ dbv.votes) :
    vote ⟨p, 1⟩ dbv u = .error (vote_conflict u.id p) ∧
    vote ⟨p, 0⟩ dbv u
      = .ok (.noContent,
          { dbv with votes := (dbv.votes.filter
              (fun r => !(r.post_id == p && r.owner_id == u.id))) }) ∧
    Vote.mk p u.id ∉ dbv.votes.filter
        (fun r => !(r.post_id == p && r.owner_id == u.id)) ∧
    vote ⟨p, 1⟩ db u
      = .ok (.created ⟨p, u.id⟩,
          { db with votes := db.votes ++ [⟨p, u.id⟩] }) ∧
    vote ⟨p, 0⟩ db u = .error ⟨404, "Vote does not exist"⟩ ∧
    vote ⟨p, 1⟩ { db with votes := db.votes ++ [⟨p, u.id⟩] } u
      = .error (vote_conflict u.id p) ∧
    vote ⟨p, 0⟩ { db with votes := db.votes ++ [⟨p, u.id⟩] } u
      = .ok (.noContent, db) := by
  have hnone := find?_vote_eq_none p u.id db.votes hfresh
  have hsome := find?_vote_eq_some p u.id dbv.votes hvoted
  have hrow : ((Vote.mk p u.id).post_id == p
      && (Vote.mk p u.id).owner_id == u.id) = true :=
    (vote_pred_iff p u.id (Vote.mk p u.id)).mpr rfl
  have hmem : Vote.mk p u.id ∈ db.votes ++ [Vote.mk p u.id] :=
    List.mem_append_right _ (List.mem_singleton.mpr rfl)
  have hsome2 := find?_vote_eq_some p u.id (db.votes ++ [Vote.mk p u.id]) hmem
  refine ⟨?_, ?_, ?_, ?_, ?_, ?_, ?_⟩
  · simp only [vote, hsome]
    norm_num
  · simp only [vote, hsome]
    norm_num
  · intro hc
    exact absurd ((List.mem_filter.mp hc).2) (by simp [hrow])
  · simp only [vote, hnone]
    norm_num
  · simp only [vote, hnone]
    norm_num
  · simp only [vote, hsome2]
    norm_num
  · have h7 : vote ⟨p, 0⟩ { db with votes := db.votes ++ [Vote.mk p u.id] } u
        = .ok (.noContent, { db with votes :=
            ((db.votes ++ [Vote.mk p u.id]).filter
              (fun r => !(r.post_id == p && r.owner_id == u.id))) }) := by
      simp only [vote, hsome2]
      norm_num
    have hsingle : [Vote.mk p u.id].filter
        (fun r => !(r.post_id == p && r.owner_id == u.id)) = [] := by
      simp [hrow]
    rw [h7, List.filter_append, filter_vote_eq_self p u.id db.votes hfresh,
      hsingle, List.append_nil]

/-- Witness for claim C3: user 1 on post 1, with the empty database as
the fresh state and a database holding exactly the vote row (1, 1) as
the voted state. -/
theorem vote_state_machine_witness :
    Vote.mk 1 1 ∉ (DB.mk [] [] []).votes ∧
    Vote.mk 1 1 ∈ (DB.mk [] [] [Vote.mk 1 1]).votes ∧
    (vote ⟨1, 1⟩ ⟨[], [], [⟨1, 1⟩]⟩ ⟨1, "a@x.com", "h"⟩
        = .error (vote_conflict 1 1) ∧
      vote ⟨1, 0⟩ ⟨[], [], [⟨1, 1⟩]⟩ ⟨1, "a@x.com", "h"⟩
        = .ok (.noContent,
            { DB.mk [] [] [⟨1, 1⟩] with
                votes := ([Vote.mk 1 1].filter
                  (fun r => !(r.post_id == 1 && r.owner_id == 1))) }) ∧
      Vote.mk 1 1 ∉ [Vote.mk 1 1].filter
          (fun r => !(r.post_id == 1 && r.owner_id == 1)) ∧
      vote ⟨1, 1⟩ ⟨[], [], []⟩ ⟨1, "a@x.com", "h"⟩
        = .ok (.created ⟨1, 1⟩,
            { DB.mk [] [] [] with votes := [] ++ [⟨1, 1⟩] }) ∧
      vote ⟨1, 0⟩ ⟨[], [], []⟩ ⟨1, "a@x.com", "h"⟩
        = .error ⟨404, "Vote does not exist"⟩ ∧
      vote ⟨1, 1⟩ { DB.mk [] [] [] with votes := [] ++ [⟨1, 1⟩] }
          ⟨1, "a@x.com", "h"⟩
        = .error (vote_conflict 1 1) ∧
      vote ⟨1, 0⟩ { DB.mk [] [] [] with votes := [] ++ [⟨1, 1⟩] }
          ⟨1, "a@x.com", "h"⟩
        = .ok (.noContent, ⟨[], [], []⟩)) :=
  ⟨by decide, by decide,
    vote_state_machine ⟨1, "a@x.com", "h"⟩ 1 ⟨[], [], []⟩
      ⟨[], [], [⟨1, 1⟩]⟩ (by decide) (by decide)⟩

/-- Claim C5 counterevidence: with posts 1 and 2 both owned by user 1,
deleting post 1 succeeds, yet the subsequent get of post id 1 returns
200 with post 2 instead of the claimed 404 — the single-post query
never filters by the id parameter. -/
theorem get_after_delete_divergence :
    delete_post 1
        ⟨[⟨1, "a@x.com", "h"⟩],
          [⟨1, 1, "t1", "c1", true⟩, ⟨2, 1, "t2", "c2", true⟩], []⟩
        ⟨1, "a@x.com", "h"⟩
      = .ok ⟨[⟨1, "a@x.com", "h"⟩], [⟨2, 1, "t2", "c2", true⟩], []⟩ ∧
    get_post 1 ⟨[⟨1, "a@x.com", "h"⟩], [⟨2, 1, "t2", "c2", true⟩], []⟩
      = .ok ⟨⟨2, 1, "t2", "c2", true⟩, 0⟩ :=
  ⟨rfl, rfl⟩

/-- Claim C6: when no post with id i exists, both delete and update
return the 404 NotFound error whose detail quotes i, before any
ownership comparison can be reached; hence a 403 can only arise for an
existing post. -/
theorem existence_before_ownership (i : Int) (body : PostCreate) (db : DB)
    (u : User) (h : ∀ p ∈ db.posts, p.id ≠ i) :
    delete_post i db u
        = .error ⟨404, "post with id " ++ toString i ++ " not found"⟩ ∧
    update_post i body db u
        = .error ⟨404, "post with id " ++ toString i ++ " not found"⟩ := by
  have hf : db.posts.find? (fun p => p.id == i) = none := by
    rw [List.find?_eq_none]
    intro q hq
    simpa using h q hq
  constructor
  · unfold delete_post
    rw [hf]
  · unfold update_post
    rw [hf]

/-- Witness for claim C6: the empty database holds no post with id 1,
so delete and update of post 1 both report 404. -/
theorem existence_before_ownership_witness :
    (∀ p ∈ (DB.mk [] [] []).posts, p.id ≠ 1) ∧
    (delete_post 1 ⟨[], [], []⟩ ⟨1, "a@x.com", "h"⟩
        = .error ⟨404, "post with id " ++ toString (1 : Int) ++ " not found"⟩ ∧
      update_post 1 ⟨"t", "c", true⟩ ⟨[], [], []⟩ ⟨1, "a@x.com", "h"⟩
        = .error ⟨404, "post with id " ++ toString (1 : Int) ++ " not found"⟩) :=
  ⟨by simp, existence_before_ownership 1 ⟨"t", "c", true⟩ ⟨[], [], []⟩
    ⟨1, "a@x.com", "h"⟩ (by simp)⟩

/-- Claim C7: a password verifies against its own hash for any salt;
a different password never verifies against that hash; hashing the
same password under two distinct salts yields distinct hash strings,
both of which still verify against the password. -/
theorem password_hash_round_trip (p q : String) (s t : Nat)
    (hpq : p ≠ q) (hst : s ≠ t) :
    verify_password p (hash_password p s) = true ∧
    verify_password p (hash_password q s) = false ∧
    hash_password p s ≠ hash_password p t ∧
    verify_password p (hash_password p t) = true := by
  refine ⟨?_, ?_, ?_, ?_⟩
  · simp [verify_password, hash_password]
  · simp [verify_password, hash_password, hpq]
  · intro hc
    exact hst (congrArg HashString.salt hc)
  · simp [verify_password, hash_password]

/-- Witness for claim C7 at passwords secret1 and hunter2 with salts 0
and 1. -/
theorem password_hash_round_trip_witness :
    ("secret1" ≠ "hunter2") ∧ ((0 : Nat) ≠ 1) ∧
    (verify_password "secret1" (hash_password "secret1" 0) = true ∧
      verify_password "secret1" (hash_password "hunter2" 0) = false ∧
      hash_password "secret1" 0 ≠ hash_password "secret1" 1 ∧
      verify_password "secret1" (hash_password "secret1" 1) = true) :=
  ⟨by decide, by decide,
    password_hash_round_trip "secret1" "hunter2" 0 1 (by decide) (by decide)⟩

/-- Claim C8: verify_password is a total Boolean function — never an
exception — and on a stored hash whose algorithm identifier is not the
configured one (a malformed hash) it returns false. -/
theorem verify_password_malformed (plain : String) (hashed : HashString)
    (h : hashed.algorithm ≠ ARGON2_ID) :
    verify_password plain hashed = false := by
  unfold verify_password
  rw [if_neg (by simpa using h)]

/-- Witness for claim C8 on a hash tagged with an unrecognised
algorithm identifier. -/
theorem verify_password_malformed_witness :
    (HashString.mk "bcrypt" 0 "junk").algorithm ≠ ARGON2_ID ∧
    verify_password "x" ⟨"bcrypt", 0, "junk"⟩ = false :=
  ⟨by decide, verify_password_malformed "x" ⟨"bcrypt", 0, "junk"⟩ (by decide)⟩

/-- Claim C9: a vote request whose direction is neither 1 nor 0 fails
with the 400 Invalid vote direction error; since the handler only
returns a new database state on success, the error leaves the vote
state unchanged. -/
theorem invalid_vote_direction (v : VoteSchema) (db : DB) (u : User)
    (h1 : v.dir ≠ 1) (h0 : v.dir ≠ 0) :
    vote v db u = .error ⟨400, "Invalid vote direction"⟩ := by
  simp only [vote, if_neg h1, if_neg h0]

/-- Witness for claim C9 at direction 2. -/
theorem invalid_vote_direction_witness :
    ((2 : Int) ≠ 1) ∧ ((2 : Int) ≠ 0) ∧
    vote ⟨1, 2⟩ ⟨[], [], []⟩ ⟨1, "a@x.com", "h"⟩
      = .error ⟨400, "Invalid vote direction"⟩ :=
  ⟨by decide, by decide,
    invalid_vote_direction ⟨1, 2⟩ ⟨[], [], []⟩ ⟨1, "a@x.com", "h"⟩
      (by decide) (by decide)⟩

/-- Claim C10: the successful result of the single-post read is the
same for every id argument over any fixed database state — the query
behind get_post never filters by the id parameter. -/
theorem get_post_independent_of_id (db : DB) (i j : Int) :
    okOf (get_post i db) = okOf (get_post j db) := by
  unfold okOf get_post
  rcases hp : db.posts with _ | ⟨q, rest⟩ <;> rfl

end FastAPITutorial
